import Mathlib

/-!
Shallow embedding of the `tcp-rust` repository (a user-space TCP stack over a
tun device) and proofs about the claims of its specification.

Machine integers (`u32` sequence numbers, `usize` lengths) are modelled as
`Nat` with explicit reduction modulo `2^32 = 4294967296` where the Rust code
performs wrapping arithmetic.  Byte queues (`VecDeque<u8>`) are modelled as
`List Nat`.  A Rust panic (failed `assert!`/ slice-index out of bounds /
`copy_from_slice` length mismatch / `unimplemented!`) is modelled by `Option`:
`none` is a panic.
-/

namespace TcpRust

/-- Wrapping 32-bit addition: `a.wrapping_add(b)` on `u32`. -/
def wadd (a b : Nat) : Nat := (a + b) % 4294967296

/-- Wrapping 32-bit subtraction: `a.wrapping_sub(b)` on `u32`. -/
def wsub (a b : Nat) : Nat := (a + (4294967296 - b % 4294967296)) % 4294967296

/-- The `Wrap::wrapping_lt` implementation of `src/tcp.rs`
(`self.wrapping_sub(rhs) > (1 << 31)`). -/
def wrapping_lt (a b : Nat) : Bool := decide (2147483648 < wsub a b)

/-- The `Wrap::is_between_wrapped` implementation of `src/tcp.rs`
(`start.wrapping_lt(*self) && self.wrapping_lt(end)`). -/
def is_between_wrapped (x s e : Nat) : Bool := wrapping_lt s x && wrapping_lt x e

/-- The `Wrap::is_between_wrapped` implementation of `src/connection.rs`
(the case analysis on `start.cmp(&self)`). -/
def is_between_wrapped_conn (x s e : Nat) : Bool :=
  if s = x then false
  else if s < x then !(decide (s ≤ e) && decide (e ≤ x))
  else decide (e < s) && decide (x < e)

/-- TCP connection states (the `State` enum of `src/tcp.rs`). -/
inductive State where
  | SynRecvd
  | Estab
  | FinWait1
  | FinWait2
  | TimeWait
deriving DecidableEq

/-- Send sequence space (RFC 793 S3.2 F4), struct `SendSequenceSpace` of
`src/tcp.rs`. -/
structure SendSequenceSpace where
  una : Nat
  nxt : Nat
  wnd : Nat
  up : Bool
  wl1 : Nat
  wl2 : Nat
  iss : Nat
deriving DecidableEq

/-- Receive sequence space (RFC 793 S3.2 F5), struct `ReceiveSequenceSpace` of
`src/tcp.rs`. -/
structure ReceiveSequenceSpace where
  nxt : Nat
  wnd : Nat
  up : Bool
  irs : Nat
deriving DecidableEq

/-- The TCB (struct `Connection` of `src/tcp.rs`).  The header templates are
kept only through the fields the segment handlers read and write; the timers
(`send_times`, `srtt`) involve wall-clock time and are outside the embedding.
-/
structure Connection where
  state : State
  send : SendSequenceSpace
  recv : ReceiveSequenceSpace
  incoming : List Nat
  unacked : List Nat
  closed : Bool
  closed_at : Option Nat
deriving DecidableEq

/-- An inbound TCP segment as `on_packet`/`accept` read it from
`TcpHeaderSlice` and the payload slice: `seq = sequence_number()`,
`ackn = acknowledgment_number()`, `wnd = window_size()`, the `syn`/`fin`/`ack`
flags, and the payload bytes. -/
structure Segment where
  seq : Nat
  ackn : Nat
  wnd : Nat
  syn : Bool
  fin : Bool
  ack : Bool
  payload : List Nat
deriving DecidableEq

/-- A segment emitted on the wire by `Connection::write`: its sequence number,
acknowledgment number and payload length. -/
structure Sent where
  seq : Nat
  ackn : Nat
  payload_len : Nat
deriving DecidableEq

/-- The `Connection::write(nic, seq, limit)` method of `src/tcp.rs`, called
with the current template `syn`/`fin` flags (which it consumes).  It draws up
to `limit` payload bytes from `unacked` at offset `seq - SND.una` (offset `0`
for the pure FIN retransmit `seq == closed_at + 1`), truncated to the 1504-byte
buffer minus the 20-byte IPv4 and 20-byte TCP headers, advances `SND.nxt` to
the end of the segment if that is wrap-greater, and returns the emitted
segment.  An offset beyond `unacked.len()` makes the slice split
`head = &head[offset..]` / `tail = &tail[(offset - skipped)..]` panic:
`none`. -/
def Connection.write (c : Connection) (seq limit : Nat) (synFlag finFlag : Bool) :
    Option (Connection × Sent) :=
  let offset0 := wsub seq c.send.una
  let offset :=
    match c.closed_at with
    | some ca => if seq = wadd ca 1 then 0 else offset0
    | none => offset0
  if offset ≤ c.unacked.length then
    let max_data := min limit (c.unacked.length - offset)
    let payload_bytes := min max_data 1464
    let next_seq0 := wadd seq payload_bytes
    let next_seq1 := if synFlag then wadd next_seq0 1 else next_seq0
    let next_seq := if finFlag then wadd next_seq1 1 else next_seq1
    let send' := if wrapping_lt c.send.nxt next_seq then
        { c.send with nxt := next_seq } else c.send
    some ({ c with send := send' },
      { seq := seq, ackn := c.recv.nxt, payload_len := payload_bytes })
  else none

/-- The TCB freshly initialised by `Connection::accept` before the SYN|ACK is
emitted: `irs = seg.seq`, `RCV.nxt = seg.seq + 1`,
`RCV.wnd = seg.window_size()`, `iss = una = nxt = 0`, `SND.wnd = 1024`, state
`SynRecvd`, empty queues. -/
def accept_tcb (seg : Segment) : Connection :=
  { state := .SynRecvd
    recv := { irs := seg.seq, nxt := wadd seg.seq 1, wnd := seg.wnd, up := false }
    send := { iss := 0, una := 0, nxt := 0, wnd := 1024, up := false, wl1 := 0, wl2 := 0 }
    incoming := []
    unacked := []
    closed := false
    closed_at := none }

/-- The `Connection::accept` method of `src/tcp.rs`: on a SYN, build the
fresh TCB `accept_tcb seg` and emit the SYN|ACK via `write(nic, SND.nxt, 0)`
with the template `syn` flag set.  Returns `none` when the segment does not
carry SYN (the Rust `Ok(None)`). -/
def accept (seg : Segment) : Option Connection :=
  if !seg.syn then none
  else
    match (accept_tcb seg).write (accept_tcb seg).send.nxt 0 true false with
    | some (c', _) => some c'
    | none => none

/-- The segment acceptability check at the top of `Connection::on_packet` in
`src/tcp.rs` (the computation of the `okay` boolean), verbatim:
for `slen = 0` the two zero-length cases, and for `slen > 0` the expression
`!(RCV.wnd == 0) || !(!b1 && !b2)` with `b1`/`b2` the two
`is_between_wrapped` window tests. -/
def seg_okay (c : Connection) (seg : Segment) : Bool :=
  let w_end := wadd c.recv.nxt c.recv.wnd
  let slen := seg.payload.length + (if seg.syn then 1 else 0) + (if seg.fin then 1 else 0)
  if slen = 0 then
    if c.recv.wnd = 0 then decide (seg.seq = c.recv.nxt)
    else is_between_wrapped seg.seq (wsub c.recv.nxt 1) w_end
  else
    !(decide (c.recv.wnd = 0)) ||
      !(!(is_between_wrapped seg.seq (wsub c.recv.nxt 1) w_end) &&
        !(is_between_wrapped (wadd seg.seq (slen - 1)) (wsub c.recv.nxt 1) w_end))

/-- The ACK-processing block of `Connection::on_packet` (`src/tcp.rs`
lines 313-355): the `SynRecvd → Estab` transition, then, in
`Estab`/`FinWait1`/`FinWait2` with `SEG.ACK ∈ (SND.UNA, SND.NXT+1)`, the drain
of `min(ackn - data_start, unacked.len())` bytes from `unacked` (only when
`unacked` is non-empty) followed by `SND.una := ackn`.  The `send_times`
retention and SRTT update involve wall-clock time and are outside the
embedding. -/
def ack_stage_core (c : Connection) (seg : Segment) : Connection :=
  if c.state = .Estab ∨ c.state = .FinWait1 ∨ c.state = .FinWait2 then
    if is_between_wrapped seg.ackn c.send.una (wadd c.send.nxt 1) then
      { (if c.unacked.isEmpty then c
         else
           { c with
             unacked := c.unacked.drop (min (wsub seg.ackn
               (wadd c.send.una (if c.send.una = c.send.iss then 1 else 0)))
               c.unacked.length) }) with
        send := { c.send with una := seg.ackn } }
    else c
  else c

def ack_stage (c : Connection) (seg : Segment) : Connection :=
  ack_stage_core
    (if c.state = .SynRecvd then
       (if is_between_wrapped seg.ackn (wsub c.send.una 1) (wadd c.send.nxt 1) then
          { c with state := .Estab }
        else c)
     else c) seg

/-- The FIN-acked check of `Connection::on_packet` (`src/tcp.rs` lines
357-364): in `FinWait1`, if `SND.una == closed_at + 1`, move to `FinWait2`. -/
def fin_acked_stage (c : Connection) : Connection :=
  if c.state = .FinWait1 then
    match c.closed_at with
    | some ca => if c.send.una = wadd ca 1 then { c with state := .FinWait2 } else c
    | none => c
  else c

/-- The tail of the payload-delivery block of `Connection::on_packet` once the
prefix length `skip` to trim is known: append `payload[skip..]` to `incoming`,
set `RCV.nxt := seq + payload.len`, emit a bare ACK. -/
def data_deliver (c : Connection) (seg : Segment) (skip : Nat) :
    Option (Connection × List Sent) :=
  match Connection.write
      { c with
        incoming := c.incoming ++ seg.payload.drop skip
        recv := { c.recv with nxt := wadd seg.seq seg.payload.length } }
      c.send.nxt 0 false false with
  | some (c2, s) => some (c2, [s])
  | none => none

/-- The payload-delivery block of `Connection::on_packet` (`src/tcp.rs` lines
366-388): for a non-empty payload in `Estab`/`FinWait1`/`FinWait2`, compute
`unread_data_at = RCV.nxt - seq` (wrapping); if it exceeds the payload length
it must equal `payload.len + 1` (else the `assert_eq!` panics: `none`) and is
reset to 0; then deliver `payload[unread_data_at..]`. -/
def data_stage (c : Connection) (seg : Segment) : Option (Connection × List Sent) :=
  if seg.payload.isEmpty then some (c, [])
  else if c.state = .Estab ∨ c.state = .FinWait1 ∨ c.state = .FinWait2 then
    if seg.payload.length < wsub c.recv.nxt seg.seq then
      if wsub c.recv.nxt seg.seq = seg.payload.length + 1 then data_deliver c seg 0
      else none
    else data_deliver c seg (wsub c.recv.nxt seg.seq)
  else some (c, [])

/-- The FIN block of `Connection::on_packet` (`src/tcp.rs` lines 390-398): a
FIN in `FinWait2` advances `RCV.nxt` by 1, emits an ACK and moves to
`TimeWait`. -/
def fin_stage (c : Connection) (seg : Segment) : Option (Connection × List Sent) :=
  if seg.fin then
    if c.state = .FinWait2 then
      match Connection.write
          { c with recv := { c.recv with nxt := wadd c.recv.nxt 1 } }
          c.send.nxt 0 false false with
      | some (c2, s) => some ({ c2 with state := .TimeWait }, [s])
      | none => none
    else some (c, [])
  else some (c, [])

/-- The `Connection::on_packet` method of `src/tcp.rs`, as the composition of
its blocks in source order: acceptability check (unacceptable segments get a
bare ACK `write(nic, SND.nxt, 0)` and return), the no-ACK branch (only a
payload-free SYN advances `RCV.nxt`; `assert!(data.is_empty())` panics
otherwise: `none`), ACK processing, FIN-acked check, payload delivery, FIN
processing.  Returns the final TCB and the emitted segments, `none` on
panic. -/
def on_packet (c : Connection) (seg : Segment) : Option (Connection × List Sent) :=
  if !(seg_okay c seg) then
    match c.write c.send.nxt 0 false false with
    | some (c', s) => some (c', [s])
    | none => none
  else if !seg.ack then
    if seg.syn then
      if seg.payload.isEmpty then
        some ({ c with recv := { c.recv with nxt := wadd seg.seq 1 } }, [])
      else none
    else some (c, [])
  else
    let c1 := ack_stage c seg
    let c2 := fin_acked_stage c1
    match data_stage c2 seg with
    | some (c3, out1) =>
      match fin_stage c3 seg with
      | some (c4, out2) => some (c4, out1 ++ out2)
      | none => none
    | none => none

/-- An error kind surfaced to the stream API (`io::ErrorKind` in the
source). -/
inductive IoErr where
  | notConnected
deriving DecidableEq

/-- The `Connection::close` method of `src/tcp.rs` (lines 528-543): sets
`closed := true` (before inspecting the state, so also on the error path),
moves `SynRecvd`/`Estab` to `FinWait1`, leaves `FinWait1`/`FinWait2` alone,
and returns a `NotConnected` error in every other state. -/
def Connection.close (c : Connection) : Connection × Option IoErr :=
  let c : Connection := { c with closed := true }
  match c.state with
  | .SynRecvd | .Estab => ({ c with state := .FinWait1 }, none)
  | .FinWait1 | .FinWait2 => (c, none)
  | _ => (c, some .notConnected)

/-- The shutdown direction argument of `TcpStream::shutdown`
(`std::net::Shutdown`). -/
inductive Shutdown where
  | write
  | read
  | both
deriving DecidableEq

/-- The `TcpStream::shutdown` method of `src/lib.rs` (lines 220-232): its body
is `unimplemented!()`, so every call panics (`none`) before touching the
TCB. -/
def stream_shutdown (_c : Connection) (_how : Shutdown) : Option (Connection × Option IoErr) :=
  none

/-- The possible outcomes of one pass of the `TcpStream::read` loop body in
`src/lib.rs`: a successful return (the updated caller buffer, the returned
count, and the remaining `incoming` queue), a panic, or parking on the
condition variable. -/
inductive ReadResult where
  | ret (buf : List Nat) (n : Nat) (remaining : List Nat)
  | panic
  | blocked
deriving DecidableEq

/-- One pass of the `TcpStream::read` loop body of `src/lib.rs` (lines
234-281), for a connection present in the map.  `hd`/`tl` are the two slices
of the `incoming` `VecDeque` as returned by `as_slices()`, `buf` the caller's
buffer, `recvClosed` the value of `is_recv_closed()`.  Mirrors the source: EOF
when closed and empty; otherwise copy `h_read = min(buf.len, head.len)` head
bytes to `buf[..h_read]`, then execute
`buf[..t_read].copy_from_slice(&tail[..])` with
`t_read = min(buf.len - h_read, tail.len)` — which writes the whole tail at
the start of `buf` and panics unless `t_read == tail.len()` — and drain
`h_read + t_read` bytes from the front of the queue. -/
def stream_read (hd tl buf : List Nat) (recvClosed : Bool) : ReadResult :=
  let incoming := hd ++ tl
  if recvClosed && incoming.isEmpty then .ret buf 0 incoming
  else if !incoming.isEmpty then
    let h_read := min buf.length hd.length
    let buf1 := hd.take h_read ++ buf.drop h_read
    let t_read := min (buf.length - h_read) tl.length
    if t_read = tl.length then
      let buf2 := tl.take t_read ++ buf1.drop t_read
      .ret buf2 (h_read + t_read) (incoming.drop (h_read + t_read))
    else .panic
  else .blocked

/-! ### Concrete inputs used by the claim theorems -/

/-- Connection used to witness claim C5: an established connection with
`SND.una = 1`, `SND.nxt = 6` and five unacknowledged bytes. -/
def c5_conn : Connection :=
  { state := .Estab
    send := { una := 1, nxt := 6, wnd := 1024, up := false, wl1 := 0, wl2 := 0, iss := 0 }
    recv := { nxt := 1006, wnd := 1024, up := false, irs := 1000 }
    incoming := [], unacked := [10, 20, 30, 40, 50], closed := false, closed_at := none }

/-- Segment used to witness claim C5: a pure ACK of three data bytes. -/
def c5_seg : Segment :=
  { seq := 1006, ackn := 4, wnd := 4096, syn := false, fin := false, ack := true,
    payload := [] }

/-- Connection exhibiting the C1 bug: established, `RCV.nxt = 1006`,
`RCV.wnd = 1024` (the input of end-to-end scenario 5 of the spec). -/
def c1_conn : Connection :=
  { state := .Estab
    send := { una := 1, nxt := 1, wnd := 1024, up := false, wl1 := 0, wl2 := 0, iss := 0 }
    recv := { nxt := 1006, wnd := 1024, up := false, irs := 1000 }
    incoming := [], unacked := [], closed := false, closed_at := none }

/-- Segment exhibiting the C1 bug: one payload byte at `seq = 5000`, far
outside the window `(1005, 2030)`. -/
def c1_seg : Segment :=
  { seq := 5000, ackn := 1, wnd := 4096, syn := false, fin := false, ack := true,
    payload := [120] }

/-- Connection exhibiting the C2 duplicate-delivery bug: established with
`RCV.nxt = 1007`. -/
def c2_conn : Connection :=
  { state := .Estab
    send := { una := 1, nxt := 1, wnd := 1024, up := false, wl1 := 0, wl2 := 0, iss := 0 }
    recv := { nxt := 1007, wnd := 1024, up := false, irs := 1000 }
    incoming := [], unacked := [], closed := false, closed_at := none }

/-- Segment exhibiting the C2 duplicate-delivery bug: a full replay of five
already-delivered bytes with `skip = RCV.nxt - seq = 6 = payload.len + 1`. -/
def c2_seg : Segment :=
  { seq := 1001, ackn := 1, wnd := 4096, syn := false, fin := false, ack := true,
    payload := [9, 8, 7, 6, 5] }

/-- Connection exhibiting the C2 panic: established with `RCV.nxt = 1006`. -/
def c2_connb : Connection :=
  { state := .Estab
    send := { una := 1, nxt := 1, wnd := 1024, up := false, wl1 := 0, wl2 := 0, iss := 0 }
    recv := { nxt := 1006, wnd := 1024, up := false, irs := 1000 }
    incoming := [], unacked := [], closed := false, closed_at := none }

/-- Segment exhibiting the C2 panic: an old, fully delivered duplicate with
`skip = 1006 - 900 = 106 > payload.len + 1`. -/
def c2_segb : Segment :=
  { seq := 900, ackn := 1, wnd := 4096, syn := false, fin := false, ack := true,
    payload := [1, 2, 3, 4, 5] }

/-- SYN segment used against claim C3: the peer advertises window 4096. -/
def c3_seg : Segment :=
  { seq := 1000, ackn := 0, wnd := 4096, syn := true, fin := false, ack := false,
    payload := [] }

/-- SYN segment used to witness the amended C3. -/
def c3_wseg : Segment :=
  { seq := 7000, ackn := 0, wnd := 2048, syn := true, fin := false, ack := false,
    payload := [] }

/-- Connection exhibiting the C8 bug: established with `RCV.nxt = 1000`,
`RCV.wnd = 1024`. -/
def c8_conn : Connection :=
  { state := .Estab
    send := { una := 1, nxt := 1, wnd := 1024, up := false, wl1 := 0, wl2 := 0, iss := 0 }
    recv := { nxt := 1000, wnd := 1024, up := false, irs := 999 }
    incoming := [], unacked := [], closed := false, closed_at := none }

/-- Segment exhibiting the C8 bug: a bare SYN (no ACK, no payload) with
`seq = 5`, far below `RCV.nxt`; the broken acceptability check lets it
through because `RCV.wnd ≠ 0`. -/
def c8_seg : Segment :=
  { seq := 5, ackn := 0, wnd := 0, syn := true, fin := false, ack := false,
    payload := [] }

/-- Connection used for claim C9: an established TCB. -/
def c9_conn : Connection :=
  { state := .Estab
    send := { una := 1, nxt := 1, wnd := 1024, up := false, wl1 := 0, wl2 := 0, iss := 0 }
    recv := { nxt := 1000, wnd := 1024, up := false, irs := 999 }
    incoming := [], unacked := [], closed := false, closed_at := none }

/-- Connection exhibiting the C10 panic: any TCB with `RCV.wnd = 1024 ≠ 0`. -/
def c10_conn : Connection :=
  { state := .Estab
    send := { una := 1, nxt := 1, wnd := 1024, up := false, wl1 := 0, wl2 := 0, iss := 0 }
    recv := { nxt := 1000, wnd := 1024, up := false, irs := 999 }
    incoming := [], unacked := [], closed := false, closed_at := none }

/-- Segment exhibiting the C10 panic: SYN set, ACK clear, one payload byte. -/
def c10_seg : Segment :=
  { seq := 1000, ackn := 0, wnd := 0, syn := true, fin := false, ack := false,
    payload := [7] }

/-! ### Helper lemmas about the stages of `on_packet` -/

theorem write_preserves {c : Connection} {seq limit : Nat} {sf ff : Bool}
    {c' : Connection} {s : Sent} (h : c.write seq limit sf ff = some (c', s)) :
    c'.send.una = c.send.una ∧ c'.unacked = c.unacked := by
  simp only [Connection.write] at h
  split at h
  · simp only [Option.some.injEq, Prod.mk.injEq] at h
    obtain ⟨hc, -⟩ := h
    subst hc
    refine ⟨?_, rfl⟩
    simp [apply_ite SendSequenceSpace.una]
  · exact absurd h (by simp)

theorem fin_acked_preserves (c : Connection) :
    (fin_acked_stage c).send.una = c.send.una ∧ (fin_acked_stage c).unacked = c.unacked := by
  unfold fin_acked_stage
  split
  · split
    · split <;> exact ⟨rfl, rfl⟩
    · exact ⟨rfl, rfl⟩
  · exact ⟨rfl, rfl⟩

theorem data_deliver_preserves {c : Connection} {seg : Segment} {skip : Nat}
    {c' : Connection} {out : List Sent} (h : data_deliver c seg skip = some (c', out)) :
    c'.send.una = c.send.una ∧ c'.unacked = c.unacked := by
  unfold data_deliver at h
  split at h
  · simp only [Option.some.injEq, Prod.mk.injEq] at h
    obtain ⟨hc, -⟩ := h
    subst hc
    rename_i hw
    have hp := write_preserves hw
    exact hp
  · exact absurd h (by simp)

theorem data_stage_preserves {c : Connection} {seg : Segment} {c' : Connection}
    {out : List Sent} (h : data_stage c seg = some (c', out)) :
    c'.send.una = c.send.una ∧ c'.unacked = c.unacked := by
  unfold data_stage at h
  split at h
  · simp only [Option.some.injEq, Prod.mk.injEq] at h
    obtain ⟨hc, -⟩ := h
    subst hc
    exact ⟨rfl, rfl⟩
  · split at h
    · split at h
      · split at h
        · exact data_deliver_preserves h
        · exact absurd h (by simp)
      · exact data_deliver_preserves h
    · simp only [Option.some.injEq, Prod.mk.injEq] at h
      obtain ⟨hc, -⟩ := h
      subst hc
      exact ⟨rfl, rfl⟩

theorem fin_stage_preserves {c : Connection} {seg : Segment} {c' : Connection}
    {out : List Sent} (h : fin_stage c seg = some (c', out)) :
    c'.send.una = c.send.una ∧ c'.unacked = c.unacked := by
  unfold fin_stage at h
  split at h
  · split at h
    · split at h
      · simp only [Option.some.injEq, Prod.mk.injEq] at h
        obtain ⟨hc, -⟩ := h
        subst hc
        rename_i hw
        have hp := write_preserves hw
        exact hp
      · exact absurd h (by simp)
    · simp only [Option.some.injEq, Prod.mk.injEq] at h
      obtain ⟨hc, -⟩ := h
      subst hc
      exact ⟨rfl, rfl⟩
  · simp only [Option.some.injEq, Prod.mk.injEq] at h
    obtain ⟨hc, -⟩ := h
    subst hc
    exact ⟨rfl, rfl⟩

theorem ack_stage_spec {c : Connection} {seg : Segment}
    (hstate : c.state = .Estab ∨ c.state = .FinWait1 ∨ c.state = .FinWait2)
    (hbet : is_between_wrapped seg.ackn c.send.una (wadd c.send.nxt 1) = true) :
    (ack_stage c seg).send.una = seg.ackn ∧
      (ack_stage c seg).unacked = c.unacked.drop (min (wsub seg.ackn
        (wadd c.send.una (if c.send.una = c.send.iss then 1 else 0)))
        c.unacked.length) := by
  have hnsyn : ¬c.state = State.SynRecvd := by
    rcases hstate with h | h | h <;> simp [h]
  unfold ack_stage ack_stage_core
  rw [if_neg hnsyn, if_pos hstate, if_pos hbet]
  refine ⟨rfl, ?_⟩
  show (if c.unacked.isEmpty then c else _).unacked = _
  rw [apply_ite Connection.unacked]
  by_cases hemp : c.unacked.isEmpty
  · rw [if_pos hemp, List.isEmpty_iff.mp hemp]
    simp
  · rw [if_neg hemp]

/-! ### Claim C5 -/

/-- Claim C5: for every `on_packet` call in state `Estab`, `FinWait1` or
`FinWait2` whose ACK number lies strictly between `SND.una` and `SND.nxt + 1`
in the wrapping order (on a segment that carries ACK and passes the
acceptability check, i.e. one whose ACK is actually processed, and that
completes without panicking), exactly
`min(ack - data_start, unacked.len())` bytes are removed from the front of
`unacked`, with `data_start = SND.una + (1 if SND.una = SND.iss else 0)`
computed before processing, and afterwards `SND.una = ack`. -/
theorem C5_ack_processing (c : Connection) (seg : Segment)
    (hstate : c.state = .Estab ∨ c.state = .FinWait1 ∨ c.state = .FinWait2)
    (hack : seg.ack = true)
    (hok : seg_okay c seg = true)
    (hbet : is_between_wrapped seg.ackn c.send.una (wadd c.send.nxt 1) = true)
    (hres : (on_packet c seg).isSome = true) :
    (on_packet c seg).map (fun r => (r.1.send.una, r.1.unacked)) =
      some (seg.ackn, c.unacked.drop (min (wsub seg.ackn
        (wadd c.send.una (if c.send.una = c.send.iss then 1 else 0)))
        c.unacked.length)) := by
  have hA := ack_stage_spec hstate hbet
  have hB := fin_acked_preserves (ack_stage c seg)
  rcases hd : data_stage (fin_acked_stage (ack_stage c seg)) seg with _ | ⟨c3, out1⟩
  · rw [on_packet, hok] at hres
    simp only [Bool.not_true, Bool.false_eq_true, if_false, hack, hd] at hres
    simp at hres
  · rcases hf : fin_stage c3 seg with _ | ⟨c4, out2⟩
    · rw [on_packet, hok] at hres
      simp only [Bool.not_true, Bool.false_eq_true, if_false, hack, hd, hf] at hres
      simp at hres
    · have hC := data_stage_preserves hd
      have hD := fin_stage_preserves hf
      rw [on_packet, hok]
      simp only [Bool.not_true, Bool.false_eq_true, if_false, hack, hd, hf,
        Option.map_some', Option.some.injEq, Prod.mk.injEq]
      constructor
      · show c4.send.una = seg.ackn
        rw [hD.1, hC.1, hB.1, hA.1]
      · show c4.unacked = _
        rw [hD.2, hC.2, hB.2, hA.2]

/-- Witness for C5: a concrete run where the ACK `4 ∈ (1, 7)` has
`data_start = 1 + 0 = 1`, drains exactly `min(4 - 1, 5) = 3` bytes from
`unacked`, and sets `SND.una = 4`. -/
theorem C5_ack_processing_witness :
    (on_packet c5_conn c5_seg).map (fun r => (r.1.send.una, r.1.unacked)) =
      some (4, [40, 50]) :=
  C5_ack_processing c5_conn c5_seg (Or.inl rfl) rfl (by decide) (by decide) (by decide)

/-! ### Claims C6 and C7: the wrapping comparison functions -/

/-- Counterexample to C6: at `x = 50`, `start = 30`, `end = 11` (the example
from the repository's own doc comment on `is_between_wrapped`), the
`connection.rs` case-analysis implementation returns `true` while the
`tcp.rs` `wrapping_lt`-based implementation returns `false`, so the two do
not return the same truth value. -/
theorem C6_counterexample :
    is_between_wrapped_conn 50 30 11 = true ∧
      is_between_wrapped 50 30 11 = false ∧
      is_between_wrapped_conn 50 30 11 ≠ (wrapping_lt 30 50 && wrapping_lt 50 11) := by
  decide

/-- Claim C6 (amended): the `tcp.rs` implementation of `is_between_wrapped`
equals `wrapping_lt(start, x) && wrapping_lt(x, end)`, and it implies the
`connection.rs` case-analysis implementation; the converse implication (and
hence the claimed equivalence) fails. -/
theorem C6_between_refinement (x s e : Nat)
    (hx : x < 4294967296) (hs : s < 4294967296) (he : e < 4294967296) :
    is_between_wrapped x s e = (wrapping_lt s x && wrapping_lt x e) ∧
      (is_between_wrapped x s e = true → is_between_wrapped_conn x s e = true) := by
  refine ⟨rfl, fun h => ?_⟩
  simp only [is_between_wrapped, Bool.and_eq_true, wrapping_lt, decide_eq_true_eq,
    wsub] at h
  obtain ⟨h1, h2⟩ := h
  unfold is_between_wrapped_conn
  split
  · rename_i hsx
    subst hsx
    omega
  · split
    · simp only [Bool.not_eq_true', Bool.and_eq_false_iff, decide_eq_false_iff_not]
      omega
    · simp only [Bool.and_eq_true, decide_eq_true_eq]
      omega

/-- Witness for C6: at `x = 3`, `s = 1`, `e = 5` the `tcp.rs` test holds and
the implication transfers it to the `connection.rs` test. -/
theorem C6_between_refinement_witness :
    is_between_wrapped_conn 3 1 5 = true ∧
      is_between_wrapped 3 1 5 = (wrapping_lt 1 3 && wrapping_lt 3 5) :=
  ⟨(C6_between_refinement 3 1 5 (by norm_num) (by norm_num) (by norm_num)).2 (by decide),
   (C6_between_refinement 3 1 5 (by norm_num) (by norm_num) (by norm_num)).1⟩

/-- Claim C7: `wrapping_lt` is anti-symmetric on distinct 32-bit values, and
whenever `a` and `b` lie in a common half-ring of width `2^31` — both at
wrapping distance less than `2^31` forward of some origin `c` — `wrapping_lt`
agrees with numeric `<` on the representatives (the offsets from that
origin). -/
theorem C7_wrapping_lt_order (a b c : Nat)
    (ha : a < 4294967296) (hb : b < 4294967296) (hc : c < 4294967296) :
    (a ≠ b → ¬(wrapping_lt a b = true ∧ wrapping_lt b a = true)) ∧
      (wsub a c < 2147483648 → wsub b c < 2147483648 →
        (wrapping_lt a b = true ↔ wsub a c < wsub b c)) := by
  simp only [wrapping_lt, wsub, decide_eq_true_eq, ne_eq]
  constructor
  · intro hne hcontra
    omega
  · intro h1 h2
    omega

/-- Witness for C7: at `a = 1`, `b = 2`, origin `c = 0`, anti-symmetry holds
and `wrapping_lt 1 2` agrees with `1 < 2` on the representatives. -/
theorem C7_wrapping_lt_order_witness :
    ¬(wrapping_lt 1 2 = true ∧ wrapping_lt 2 1 = true) ∧
      (wrapping_lt 1 2 = true ↔ wsub 1 0 < wsub 2 0) :=
  ⟨(C7_wrapping_lt_order 1 2 0 (by norm_num) (by norm_num) (by norm_num)).1 (by decide),
   (C7_wrapping_lt_order 1 2 0 (by norm_num) (by norm_num) (by norm_num)).2
     (by decide) (by decide)⟩

/-! ### Claim C1: the acceptability check -/

/-- Claim C1 fails on the code: with `RCV.wnd = 1024 ≠ 0`, a one-byte segment
at `seq = 5000` has both window tests false (neither `seq` nor
`seq + slen - 1` lies in `(RCV.nxt - 1, RCV.nxt + RCV.wnd)`), yet the `okay`
expression — `!(RCV.wnd == 0) || !(!b1 && !b2)`, an `||` where the RFC logic
needs `&&` — judges it acceptable, and instead of emitting a bare ACK and
returning, `on_packet` goes on to the data block and panics on
`assert_eq!(unread_data_at, data.len() + 1)`. -/
theorem C1_acceptability_code_bug :
    seg_okay c1_conn c1_seg = true ∧
      is_between_wrapped c1_seg.seq (wsub c1_conn.recv.nxt 1)
        (wadd c1_conn.recv.nxt c1_conn.recv.wnd) = false ∧
      is_between_wrapped (wadd c1_seg.seq (c1_seg.payload.length - 1))
        (wsub c1_conn.recv.nxt 1) (wadd c1_conn.recv.nxt c1_conn.recv.wnd) = false ∧
      c1_conn.recv.wnd ≠ 0 ∧
      on_packet c1_conn c1_seg = none := by
  decide

/-! ### Claim C2: trimming of the already-received prefix -/

/-- Claim C2 fails on the code: on a segment with
`skip = RCV.nxt - seq = payload.len + 1 > payload.len` the handler does not
treat it as carrying no data — it resets `skip` to 0 and re-appends the
entire 5-byte payload to `incoming` (duplicating already-delivered bytes on
replay); and on a segment with `skip > payload.len + 1` it panics on
`assert_eq!` instead. -/
theorem C2_trim_code_bug :
    wsub c2_conn.recv.nxt c2_seg.seq = c2_seg.payload.length + 1 ∧
      c2_conn.incoming = [] ∧
      (on_packet c2_conn c2_seg).map (fun r => r.1.incoming) = some [9, 8, 7, 6, 5] ∧
      c2_segb.payload.length < wsub c2_connb.recv.nxt c2_segb.seq ∧
      on_packet c2_connb c2_segb = none := by
  decide

/-! ### Claim C3: passive open -/

/-- Counterexample to C3: on a SYN whose advertised window is 4096, `accept`
stores 4096 — the peer's window, not the locally chosen 1024 — in
`RCV.wnd`. -/
theorem C3_counterexample :
    (accept c3_seg).map (fun c => c.recv.wnd) = some 4096 ∧ (4096 : Nat) ≠ 1024 := by
  decide

/-- Evaluation of the SYN|ACK emission inside `accept`: writing a zero-length
segment at `seq = SND.nxt = 0` with the `syn` template flag set advances
`SND.nxt` to 1 and leaves everything else untouched. -/
theorem write_accept_step (seg : Segment) :
    (accept_tcb seg).write (accept_tcb seg).send.nxt 0 true false =
      some ({ accept_tcb seg with
          send := { iss := 0, una := 0, nxt := 1, wnd := 1024, up := false,
                    wl1 := 0, wl2 := 0 } },
        { seq := 0, ackn := wadd seg.seq 1, payload_len := 0 }) := by
  simp only [accept_tcb, Connection.write]
  norm_num [wsub, wadd, wrapping_lt]

/-- Closed form of `accept` on a SYN segment. -/
theorem accept_eq (seg : Segment) (h : seg.syn = true) :
    accept seg = some
      { accept_tcb seg with
        send := { iss := 0, una := 0, nxt := 1, wnd := 1024, up := false,
                  wl1 := 0, wl2 := 0 } } := by
  unfold accept
  rw [h, if_neg (by decide), write_accept_step]

/-- Claim C3 (amended): `accept` returns `None` exactly when the segment's
SYN flag is clear; on a SYN it builds a TCB with `RCV.irs = seg.seq`,
`RCV.nxt = seg.seq + 1`, `RCV.wnd` = the window advertised in the incoming
SYN (the locally chosen window 1024 is stored in `SND.wnd` and advertised in
the emitted SYN|ACK header), `SND.iss = SND.una = 0`, state `SynRcvd`, and
after the SYN|ACK is emitted `SND.nxt = SND.iss + 1`. -/
theorem C3_accept_spec (seg : Segment) :
    (accept seg = none ↔ seg.syn = false) ∧
      (seg.syn = true →
        (accept seg).map (fun c =>
          (c.state, c.recv.irs, c.recv.nxt, c.recv.wnd,
           c.send.iss, c.send.una, c.send.nxt, c.send.wnd)) =
        some (State.SynRecvd, seg.seq, wadd seg.seq 1, seg.wnd, 0, 0, 1, 1024)) := by
  cases hsyn : seg.syn
  · refine ⟨⟨fun _ => rfl, fun _ => ?_⟩, fun h => Bool.noConfusion h⟩
    unfold accept
    rw [hsyn, if_pos (by decide)]
  · refine ⟨⟨fun h => ?_, fun h => Bool.noConfusion h⟩, fun _ => ?_⟩
    · rw [accept_eq seg hsyn] at h
      exact Option.noConfusion h
    · rw [accept_eq seg hsyn]
      rfl

/-- Witness for the amended C3: on a concrete SYN (`seq = 7000`,
window 2048), `accept` produces the TCB described by the amended claim. -/
theorem C3_accept_spec_witness :
    (accept c3_wseg).map (fun c =>
      (c.state, c.recv.irs, c.recv.nxt, c.recv.wnd,
       c.send.iss, c.send.una, c.send.nxt, c.send.wnd)) =
    some (State.SynRecvd, 7000, 7001, 2048, 0, 0, 1, 1024) :=
  (C3_accept_spec c3_wseg).2 rfl

/-! ### Claim C4: the stream read path -/

/-- Claim C4 fails on the code: when the `incoming` deque is wrapped
(`as_slices()` returns head `[1]` and tail `[2]`) and the caller's buffer has
room for both bytes, `read` copies the tail byte over `buf[0]`
(`buf[..t_read].copy_from_slice(&tail[..])` writes at the start of `buf`),
returning `buf = [2, 0]` instead of the first two queue bytes `[1, 2]` in
order; and whenever `t_read < tail.len()` the same `copy_from_slice` panics
on a length mismatch.  The EOF case (empty queue, receive side closed) does
return 0 as claimed. -/
theorem C4_read_code_bug :
    stream_read [1] [2] [0, 0] false = .ret [2, 0] 2 [] ∧
      ([2, 0] : List Nat) ≠ ([1] ++ [2]).take 2 ∧
      stream_read [] [5, 6] [0] false = .panic ∧
      stream_read [] [] [0, 0] true = .ret [0, 0] 0 [] := by
  decide

/-! ### Claim C8: monotonicity of RCV.NXT + RCV.WND -/

/-- Claim C8 fails on the code: processing the bare SYN at `seq = 5` in an
established connection with `RCV.nxt = 1000` rewinds `RCV.nxt` to
`seq + 1 = 6`, so `RCV.NXT + RCV.WND` moves backward in the wrapping order
(from 2024 to 1030), contradicting the invariant — and the RFC quote in the
code's own comment — that it never decreases. -/
theorem C8_rcv_nxt_decreases :
    (on_packet c8_conn c8_seg).map (fun r => r.1.recv.nxt) = some 6 ∧
      wrapping_lt (wadd 6 c8_conn.recv.wnd)
        (wadd c8_conn.recv.nxt c8_conn.recv.wnd) = true := by
  decide

/-! ### Claim C9: shutdown(Write) -/

/-- Counterexample to C9: calling `TcpStream::shutdown(Write)` on a stream
whose TCB exists and is established does not set the `closed` flag and move
to `FinWait1` — the method body is `unimplemented!()`, so the call panics
before reaching the TCB. -/
theorem C9_counterexample :
    stream_shutdown c9_conn Shutdown.write ≠
      some ({ c9_conn with closed := true, state := State.FinWait1 }, none) := by
  simp [stream_shutdown]

/-- Claim C9 (amended): the per-TCB close logic that `shutdown(Write)` is
meant to invoke — `Connection::close` — sets the `closed` flag (in every
state, including the error path), transitions `SynRcvd`/`Estab` to
`FinWait1`, succeeds without changing the state in `FinWait1`/`FinWait2`, and
returns a "not connected" error in any other state; but `TcpStream::shutdown`
itself is `unimplemented!()` and panics without calling it. -/
theorem C9_close_spec (c : Connection) :
    (c.close).1.closed = true ∧
      ((c.state = .SynRecvd ∨ c.state = .Estab) →
        c.close = ({ c with closed := true, state := .FinWait1 }, none)) ∧
      ((c.state = .FinWait1 ∨ c.state = .FinWait2) →
        c.close = ({ c with closed := true }, none)) ∧
      (c.state = .TimeWait → (c.close).2 = some .notConnected) := by
  cases hst : c.state <;>
    simp_all [Connection.close]

/-- Witness for the amended C9: closing the established TCB `c9_conn` sets
`closed` and moves it to `FinWait1` with no error. -/
theorem C9_close_spec_witness :
    Connection.close c9_conn = ({ c9_conn with closed := true, state := State.FinWait1 }, none) :=
  (C9_close_spec c9_conn).2.1 (Or.inr rfl)

/-! ### Claim C10: the no-ACK SYN assertion -/

/-- Claim C10 fails on the code: a segment with SYN set, ACK clear and a
non-empty payload passes the acceptability check (any `slen > 0` segment does
once `RCV.wnd ≠ 0`), so the no-ACK branch reaches
`assert!(data.is_empty())` with non-empty data and `on_packet` panics. -/
theorem C10_syn_assert_code_bug :
    seg_okay c10_conn c10_seg = true ∧ c10_seg.syn = true ∧ c10_seg.ack = false ∧
      c10_seg.payload ≠ [] ∧ on_packet c10_conn c10_seg = none := by
  decide

end TcpRust
